import Mathlib

/-!
Shallow embedding of the aviation-calculator core (src/meteorology.rs,
src/utils.rs, src/fk9.rs) over the rationals.  The Rust code computes in
`f64`; every constant appearing in the source is an exact decimal, so the
model uses the exact rational value of each literal.  `f64::round`
(round half away from zero) is modelled exactly by `rustRound`.
-/

namespace AviationCalculator

/-- Model of Rust `f64::round`: round to the nearest integer, ties away
from zero. -/
def rustRound (x : ℚ) : ℤ :=
  if 0 ≤ x then ⌊x + 1 / 2⌋ else -⌊-x + 1 / 2⌋

/-- `round` from src/utils.rs (duplicated in src/meteorology.rs):
`(number * 10^precision).round() / 10^precision`. -/
def round (number : ℚ) (precision : ℕ) : ℚ :=
  (rustRound (number * 10 ^ precision) : ℚ) / 10 ^ precision

/-- `FEET` from src/utils.rs: one foot in meters. -/
def FEET : ℚ := 0.3048

/-- `feet_to_meter` from src/utils.rs. -/
def feet_to_meter (feet : ℚ) : ℚ := feet * FEET

/- Constants of src/meteorology.rs. -/

def ISA_TEMPERATURE : ℚ := 288.15

def ISA_PRESSURE : ℚ := 1013.25

def TROPOSPHERIC_TEMPERATURE_LAPSE : ℚ := 0.0065

def STRATOSPHERIC_TEMPERATURE_LAPSE : ℚ := 0.0010

def SPECIFIC_GAS_CONSTANT : ℚ := 287.058

def GRAVITATIONAL_ACCELERATION : ℚ := 9.81

def ICAO_MINIMUM_PRESSURE_ALTITUDE : ℚ := -1000

def ICAO_MAXIMUM_PRESSURE_ALTITUDE : ℚ := 80000

/-- `AtmosphericLevel` from src/meteorology.rs (`base` is a `u32` in the
source, hence `ℕ` here). -/
structure AtmosphericLevel where
  base : ℕ
  lapse_rate : ℚ
  base_temperature : ℚ
deriving DecidableEq

/-- `LEVELS` from src/meteorology.rs: troposphere, tropopause and two
stratosphere bands. -/
def LEVELS : List AtmosphericLevel :=
  [⟨0, TROPOSPHERIC_TEMPERATURE_LAPSE, 15⟩,
   ⟨11000, 0, -56.5⟩,
   ⟨20000, STRATOSPHERIC_TEMPERATURE_LAPSE, -56.5⟩,
   ⟨32000, 0, -44.5⟩]

/-- `UndefinedPressureAltitudeError` from src/meteorology.rs. -/
inductive UndefinedPressureAltitudeError where
  | BelowMinimum (min pressure_altitude : ℚ)
  | AboveMaximum (max pressure_altitude : ℚ)
deriving DecidableEq

/-- `atmospheric_level_by_geopotential_altitude` from src/meteorology.rs:
`LEVELS.iter().take_while(|l| elevation >= l.base).last().unwrap_or(first)`. -/
def atmospheric_level_by_geopotential_altitude (elevation : ℚ) : AtmosphericLevel :=
  ((LEVELS.takeWhile (fun level => decide ((level.base : ℚ) ≤ elevation))).getLast?).getD
    (LEVELS.headD ⟨0, 0, 0⟩)

/-- `icao_temperature` from src/meteorology.rs. -/
def icao_temperature (pressure_altitude : ℚ) : Except UndefinedPressureAltitudeError ℚ :=
  if pressure_altitude < ICAO_MINIMUM_PRESSURE_ALTITUDE then
    .error (.BelowMinimum ICAO_MINIMUM_PRESSURE_ALTITUDE pressure_altitude)
  else if pressure_altitude > ICAO_MAXIMUM_PRESSURE_ALTITUDE then
    .error (.AboveMaximum ICAO_MAXIMUM_PRESSURE_ALTITUDE pressure_altitude)
  else
    let current_level := atmospheric_level_by_geopotential_altitude pressure_altitude
    .ok (round (current_level.base_temperature
      - (pressure_altitude - (current_level.base : ℚ)) * current_level.lapse_rate) 2)

/-- `pressure_altitude_by_qnh` from src/meteorology.rs.  The source raises
`qnh / ISA_PRESSURE` to a real power with `f64::powf`, a transcendental
operation with no exact rational counterpart, so the model takes the power
function as an explicit parameter `fpow`; IEEE-754 guarantees
`powf(1.0, y) == 1.0`, which theorems about the ISA reference pressure
capture as the hypothesis `fpow 1 e = 1`. -/
def pressure_altitude_by_qnh (fpow : ℚ → ℚ → ℚ) (qnh field_elevation : ℚ) : ℚ :=
  round (field_elevation
    + ISA_TEMPERATURE / TROPOSPHERIC_TEMPERATURE_LAPSE
      * (1 - fpow (qnh / ISA_PRESSURE)
          (SPECIFIC_GAS_CONSTANT * TROPOSPHERIC_TEMPERATURE_LAPSE
            / GRAVITATIONAL_ACCELERATION))) 2

/-- A power function agreeing with `f64::powf` on base `1.0`, the only
base any claim about `pressure_altitude_by_qnh` exercises (at
`qnh = ISA_PRESSURE` the base is exactly `1.0` in `f64` as well). -/
def powAtOne (b _e : ℚ) : ℚ := if b = 1 then 1 else 0

/-- `calculate_temperature_deviation` from src/meteorology.rs. -/
def calculate_temperature_deviation (pressure_altitude temperature : ℚ) :
    Except UndefinedPressureAltitudeError ℚ :=
  match icao_temperature pressure_altitude with
  | .error e => .error e
  | .ok st => .ok (round (temperature - st) 2)

/- Types and constants of src/fk9.rs. -/

def MAX_TEMP : ℚ := 70

def MIN_TEMP : ℚ := -90

def MAX_SLOPE : ℚ := 25

/-- `TakeoffDistances` from src/fk9.rs (the `Sorted<Vec<f64>>` wrappers
are plain lists here; the two fixed tables are strictly sorted). -/
structure TakeoffDistances where
  mass : List ℚ
  takeoff_run : List ℚ
  to_50_feet : List ℚ

/-- `Engine` from src/fk9.rs. -/
inductive Engine where
  | Rotax912Ul
  | Rotax912Uls
deriving DecidableEq

/-- `SurfaceCondition` from src/fk9.rs. -/
inductive SurfaceCondition where
  | Inconspicuous
  | Slush
  | Snow
  | PowderSnow
deriving DecidableEq

/-- `GrassSurface` from src/fk9.rs. -/
structure GrassSurface where
  wet : Bool
  soft_ground : Bool
  damaged_turf : Bool
  high_grass : Bool
deriving DecidableEq

/-- `GrassSurface::default()`: all four flags false. -/
def GrassSurface.default : GrassSurface := ⟨false, false, false, false⟩

/-- `TakeoffCalculationError` from src/fk9.rs. -/
inductive TakeoffCalculationError where
  | MassTooLow (min mass : ℚ)
  | MassTooHigh (max mass : ℚ)
  | TemperatureTooLow (min temperature : ℚ)
  | TemperatureTooHigh (max temperature : ℚ)
  | SlopeTooSteep (max slope : ℚ)
  | InvalidPressureAltitude (source : UndefinedPressureAltitudeError)
deriving DecidableEq

/-- `takeoff_distances_by_engine` from src/fk9.rs. -/
def takeoff_distances_by_engine : Engine → TakeoffDistances
  | .Rotax912Ul =>
    ⟨[472.5, 525, 540], [106, 140, 147], [265, 350, 367]⟩
  | .Rotax912Uls =>
    ⟨[472.5, 525, 540, 570, 600], [100, 128, 136, 141, 153], [225, 320, 338, 352, 375]⟩

/-- `SortedGenerator::strict_upper_bound` from the `enterpolation` crate
(the dependency providing `Sorted`): the smallest index whose element is
strictly greater than `element`, or the length when there is none.  The
crate uses binary search; on the sorted lists used here that equals the
count of elements `≤ element`, modelled by a linear scan. -/
def strict_upper_bound (samples : List ℚ) (element : ℚ) : ℕ :=
  (samples.takeWhile (fun s => decide (s ≤ element))).length

/-- `SortedGenerator::upper_border` from the `enterpolation` crate:
`max_index = strict_upper_bound(element).clamp(1, len - 1)`,
`min_index = max_index - 1`, and the interpolation factor
`(element - samples[min_index]) / (samples[max_index] - samples[min_index])`. -/
def upper_border (samples : List ℚ) (element : ℚ) : ℕ × ℕ × ℚ :=
  let maxIdx := min (max (strict_upper_bound samples element) 1) (samples.length - 1)
  let minIdx := maxIdx - 1
  let lo := samples.getD minIdx 0
  let hi := samples.getD maxIdx 0
  (minIdx, maxIdx, (element - lo) / (hi - lo))

/-- `utils::lerp` from the `enterpolation` crate:
`first * (1 - factor) + second * factor`. -/
def lerp (first second factor : ℚ) : ℚ :=
  first * (1 - factor) + second * factor

/-- `calculate_base_distance` from src/fk9.rs: linear interpolation in the
mass table followed by the fixed `/ 120 * 100` rescale. -/
def calculate_base_distance (mass : ℚ) (masses distances : List ℚ) : ℚ :=
  let border := upper_border masses mass
  lerp (distances.getD border.1 0) (distances.getD border.2.1 0) border.2.2 / 120 * 100

/-- `apply_pressure_altitude_correction` from src/fk9.rs. -/
def apply_pressure_altitude_correction (takeoff_distance pressure_altitude : ℚ) : ℚ :=
  let multiplier : ℚ :=
    if pressure_altitude > 3000 then 0.18
    else if pressure_altitude > 1000 then 0.13
    else 0.10
  takeoff_distance * max (1 + multiplier * (pressure_altitude / 1000)) 1

/-- Modelled from the spec, for comparison with the source definition
`apply_pressure_altitude_correction`: the multiplier tier by pressure
altitude in feet, `>3000 ft → 0.18`, `>1000 ft → 0.13`, else `0.10`. -/
def spec_pressure_tier (pressure_altitude : ℚ) : ℚ :=
  if pressure_altitude > 3000 then 0.18
  else if pressure_altitude > 1000 then 0.13
  else 0.10

/-- `apply_temperature_correction` from src/fk9.rs. -/
def apply_temperature_correction (takeoff_distance temperature_deviation : ℚ) : ℚ :=
  takeoff_distance * (1 + 0.01 * temperature_deviation)

/-- `calculate_temperature_deviation_for_correction` from src/fk9.rs:
feet→meters conversion, clamp of the temperature to at least `0.0`
(`temperature.max(0.0)`), and wrapping of the atmosphere error into
`InvalidPressureAltitude`. -/
def calculate_temperature_deviation_for_correction (pressure_altitude temperature : ℚ) :
    Except TakeoffCalculationError ℚ :=
  match calculate_temperature_deviation (feet_to_meter pressure_altitude) (max temperature 0) with
  | .error e => .error (.InvalidPressureAltitude e)
  | .ok v => .ok v

/-- `apply_environmental_corrections` from src/fk9.rs. -/
def apply_environmental_corrections (takeoff_distance pressure_altitude temperature : ℚ) :
    Except TakeoffCalculationError ℚ :=
  let distance := apply_pressure_altitude_correction takeoff_distance pressure_altitude
  match calculate_temperature_deviation_for_correction pressure_altitude temperature with
  | .error e => .error e
  | .ok temperature_deviation => .ok (apply_temperature_correction distance temperature_deviation)

/-- `apply_grass_surface_corrections` from src/fk9.rs. -/
def apply_grass_surface_corrections (takeoff_distance : ℚ) (grass_surface : GrassSurface) : ℚ :=
  let d1 := takeoff_distance * 1.2
  let d2 := if grass_surface.wet then d1 * 1.1 else d1
  let d3 := if grass_surface.soft_ground then d2 * 1.5 else d2
  let d4 := if grass_surface.damaged_turf then d3 * 1.1 else d3
  if grass_surface.high_grass then d4 * 1.2 else d4

/-- `apply_corrections` from src/fk9.rs: environmental corrections, slope
factor, optional grass corrections, contamination multiplier, final
rounding to 2 decimals. -/
def apply_corrections (takeoff_distance pressure_altitude temperature slope : ℚ)
    (grass_surface : Option GrassSurface) (surface_condition : SurfaceCondition) :
    Except TakeoffCalculationError ℚ :=
  match apply_environmental_corrections takeoff_distance pressure_altitude temperature with
  | .error e => .error e
  | .ok d0 =>
    let d1 := d0 * (1 + 0.1 * slope)
    let d2 := match grass_surface with
      | some g => apply_grass_surface_corrections d1 g
      | none => d1
    .ok (round (match surface_condition with
      | .Inconspicuous => d2
      | .Slush => d2 * 1.3
      | .Snow => d2 * 1.5
      | .PowderSnow => d2 * 1.25) 2)

/-- `calculate_takeoff_distance` from src/fk9.rs. -/
def calculate_takeoff_distance (engine : Engine)
    (mass pressure_altitude temperature slope : ℚ)
    (grass_surface : Option GrassSurface) (surface_condition : SurfaceCondition) :
    Except TakeoffCalculationError (ℚ × ℚ) :=
  if temperature > MAX_TEMP then
    .error (.TemperatureTooHigh MAX_TEMP temperature)
  else if temperature < MIN_TEMP then
    .error (.TemperatureTooLow MIN_TEMP temperature)
  else if slope > MAX_SLOPE ∨ slope < -MAX_SLOPE then
    .error (.SlopeTooSteep MAX_SLOPE slope)
  else
    let takeoff_table := takeoff_distances_by_engine engine
    let mn := takeoff_table.mass.headD 0
    let mx := takeoff_table.mass.getLastD 0
    if mass < mn then .error (.MassTooLow mn mass)
    else if mass > mx then .error (.MassTooHigh mx mass)
    else
      match apply_corrections
          (calculate_base_distance mass takeoff_table.mass takeoff_table.takeoff_run)
          pressure_altitude temperature slope grass_surface surface_condition with
      | .error e => .error e
      | .ok takeoff_run =>
        match apply_corrections
            (calculate_base_distance mass takeoff_table.mass takeoff_table.to_50_feet)
            pressure_altitude temperature slope grass_surface surface_condition with
        | .error e => .error e
        | .ok fifty => .ok (takeoff_run, fifty)

/-!  Helper lemmas shared by the claim theorems. -/

theorem rustRound_intCast (k : ℤ) : rustRound (k : ℚ) = k := by
  have h2 : ⌊(1 : ℚ) / 2⌋ = 0 := by norm_num
  unfold rustRound
  by_cases h : (0 : ℚ) ≤ (k : ℚ)
  · rw [if_pos h, Int.floor_int_add, h2, add_zero]
  · rw [if_neg h]
    have hk : -(k : ℚ) = ((-k : ℤ) : ℚ) := by norm_cast
    rw [hk, Int.floor_int_add, h2, add_zero, neg_neg]

theorem round_two_decimals (k : ℤ) : round ((k : ℚ) / 100) 2 = (k : ℚ) / 100 := by
  have h : ((k : ℚ) / 100) * 10 ^ 2 = (k : ℚ) := by ring
  unfold round
  rw [h, rustRound_intCast]
  norm_num

theorem icao_temperature_isOk (pa : ℚ) (h1 : -1000 ≤ pa) (h2 : pa ≤ 80000) :
    ∃ v, icao_temperature pa = .ok v := by
  simp only [icao_temperature, ICAO_MINIMUM_PRESSURE_ALTITUDE, ICAO_MAXIMUM_PRESSURE_ALTITUDE]
  rw [if_neg (not_lt.2 h1), if_neg (not_lt.2 h2)]
  exact ⟨_, rfl⟩

theorem icao_temperature_below (pa : ℚ) (h : pa < -1000) :
    icao_temperature pa = .error (.BelowMinimum (-1000) pa) := by
  simp only [icao_temperature, ICAO_MINIMUM_PRESSURE_ALTITUDE, ICAO_MAXIMUM_PRESSURE_ALTITUDE]
  rw [if_pos h]

theorem icao_temperature_above (pa : ℚ) (h : 80000 < pa) :
    icao_temperature pa = .error (.AboveMaximum 80000 pa) := by
  simp only [icao_temperature, ICAO_MINIMUM_PRESSURE_ALTITUDE, ICAO_MAXIMUM_PRESSURE_ALTITUDE]
  rw [if_neg (not_lt.2 (by linarith)), if_pos h]

theorem apply_corrections_isOk (d pa t s : ℚ) (g : Option GrassSurface)
    (c : SurfaceCondition) (h1 : -1000 ≤ feet_to_meter pa) (h2 : feet_to_meter pa ≤ 80000) :
    ∃ v, apply_corrections d pa t s g c = .ok v := by
  obtain ⟨w, hw⟩ := icao_temperature_isOk (feet_to_meter pa) h1 h2
  unfold apply_corrections apply_environmental_corrections
    calculate_temperature_deviation_for_correction calculate_temperature_deviation
  rw [hw]
  exact ⟨_, rfl⟩

theorem apply_corrections_below (d pa t s : ℚ) (g : Option GrassSurface)
    (c : SurfaceCondition) (h : feet_to_meter pa < -1000) :
    apply_corrections d pa t s g c =
      .error (.InvalidPressureAltitude (.BelowMinimum (-1000) (feet_to_meter pa))) := by
  unfold apply_corrections apply_environmental_corrections
    calculate_temperature_deviation_for_correction calculate_temperature_deviation
  rw [icao_temperature_below _ h]

theorem apply_corrections_above (d pa t s : ℚ) (g : Option GrassSurface)
    (c : SurfaceCondition) (h : 80000 < feet_to_meter pa) :
    apply_corrections d pa t s g c =
      .error (.InvalidPressureAltitude (.AboveMaximum 80000 (feet_to_meter pa))) := by
  unfold apply_corrections apply_environmental_corrections
    calculate_temperature_deviation_for_correction calculate_temperature_deviation
  rw [icao_temperature_above _ h]

theorem calc_eq_corrections (engine : Engine) (mass pa t s : ℚ)
    (g : Option GrassSurface) (c : SurfaceCondition)
    (h1 : t ≤ 70) (h2 : -90 ≤ t) (h3 : s ≤ 25) (h4 : -25 ≤ s)
    (h5 : (takeoff_distances_by_engine engine).mass.headD 0 ≤ mass)
    (h6 : mass ≤ (takeoff_distances_by_engine engine).mass.getLastD 0) :
    calculate_takeoff_distance engine mass pa t s g c =
      match apply_corrections
          (calculate_base_distance mass (takeoff_distances_by_engine engine).mass
            (takeoff_distances_by_engine engine).takeoff_run) pa t s g c with
      | .error e => .error e
      | .ok takeoff_run =>
        match apply_corrections
            (calculate_base_distance mass (takeoff_distances_by_engine engine).mass
              (takeoff_distances_by_engine engine).to_50_feet) pa t s g c with
        | .error e => .error e
        | .ok fifty => .ok (takeoff_run, fifty) := by
  simp only [calculate_takeoff_distance, MAX_TEMP, MIN_TEMP, MAX_SLOPE]
  rw [if_neg (not_lt.2 h1), if_neg (not_lt.2 h2),
    if_neg (by rintro (h | h); exacts [absurd h (not_lt.2 h3), absurd h (not_lt.2 (by linarith))]),
    if_neg (not_lt.2 h5), if_neg (not_lt.2 h6)]

/-!  Claim theorems. -/

/-- C1 counterexample: with engine Rotax 912 ULS, mass 472.5 kg, pressure
altitude 0 ft, temperature 15 °C, slope 0 %, NO grass surface (`none`) and
contamination Inconspicuous, `calculate_takeoff_distance` does not return
`(100.00, 225.00)` (it returns `(83.33, 187.5)`: without a grass surface
the `* 1.2` grass factor that would bring the rescaled baseline back to
the table value is not applied). -/
theorem c1_variantB_none_counterexample :
    calculate_takeoff_distance .Rotax912Uls 472.5 0 15 0 none .Inconspicuous
      ≠ .ok (100, 225) := by
  have h : calculate_takeoff_distance .Rotax912Uls 472.5 0 15 0 none .Inconspicuous
      = .ok (83.33, 187.5) := by
    norm_num [calculate_takeoff_distance, MAX_TEMP, MIN_TEMP, MAX_SLOPE,
      takeoff_distances_by_engine, calculate_base_distance, upper_border, strict_upper_bound,
      lerp, List.takeWhile, apply_corrections, apply_environmental_corrections,
      apply_pressure_altitude_correction, apply_temperature_correction,
      calculate_temperature_deviation_for_correction, calculate_temperature_deviation,
      feet_to_meter, FEET, icao_temperature, ICAO_MINIMUM_PRESSURE_ALTITUDE,
      ICAO_MAXIMUM_PRESSURE_ALTITUDE, atmospheric_level_by_geopotential_altitude, LEVELS,
      TROPOSPHERIC_TEMPERATURE_LAPSE, STRATOSPHERIC_TEMPERATURE_LAPSE, round, rustRound]
  rw [h]
  intro hc
  rw [Except.ok.injEq, Prod.mk.injEq] at hc
  norm_num at hc

/-- C1 (amended): with engine Rotax 912 ULS, mass 472.5 kg, pressure
altitude 0 ft, temperature 15 °C, slope 0 %, a grass surface present with
all four condition flags false (`GrassSurface::default()`) and
contamination Inconspicuous, `calculate_takeoff_distance` returns
`Ok((100.00, 225.00))`. -/
theorem c1_variantB_default_grass :
    calculate_takeoff_distance .Rotax912Uls 472.5 0 15 0 (some GrassSurface.default)
      .Inconspicuous = .ok (100, 225) := by
  norm_num [calculate_takeoff_distance, MAX_TEMP, MIN_TEMP, MAX_SLOPE,
    takeoff_distances_by_engine, calculate_base_distance, upper_border, strict_upper_bound,
    lerp, List.takeWhile, apply_corrections, apply_environmental_corrections,
    apply_pressure_altitude_correction, apply_temperature_correction,
    calculate_temperature_deviation_for_correction, calculate_temperature_deviation,
    feet_to_meter, FEET, icao_temperature, ICAO_MINIMUM_PRESSURE_ALTITUDE,
    ICAO_MAXIMUM_PRESSURE_ALTITUDE, atmospheric_level_by_geopotential_altitude, LEVELS,
    TROPOSPHERIC_TEMPERATURE_LAPSE, STRATOSPHERIC_TEMPERATURE_LAPSE, round, rustRound,
    apply_grass_surface_corrections, GrassSurface.default]

/-- C2: with engine Rotax 912 ULS, mass 600 kg, pressure altitude 0 ft,
temperature 15 °C, slope 0 %, grass surface
`{wet: true, soft_ground: true, damaged_turf: false, high_grass: false}`
and contamination Inconspicuous, `calculate_takeoff_distance` returns
`Ok((252.45, 618.75))`. -/
theorem c2_variantB_max_mass_wet_soft_grass :
    calculate_takeoff_distance .Rotax912Uls 600 0 15 0
      (some ⟨true, true, false, false⟩) .Inconspicuous = .ok (252.45, 618.75) := by
  norm_num [calculate_takeoff_distance, MAX_TEMP, MIN_TEMP, MAX_SLOPE,
    takeoff_distances_by_engine, calculate_base_distance, upper_border, strict_upper_bound,
    lerp, List.takeWhile, apply_corrections, apply_environmental_corrections,
    apply_pressure_altitude_correction, apply_temperature_correction,
    calculate_temperature_deviation_for_correction, calculate_temperature_deviation,
    feet_to_meter, FEET, icao_temperature, ICAO_MINIMUM_PRESSURE_ALTITUDE,
    ICAO_MAXIMUM_PRESSURE_ALTITUDE, atmospheric_level_by_geopotential_altitude, LEVELS,
    TROPOSPHERIC_TEMPERATURE_LAPSE, STRATOSPHERIC_TEMPERATURE_LAPSE, round, rustRound,
    apply_grass_surface_corrections]

/-- C3: `icao_temperature` returns `Ok(15.0)` at 0 m, `Ok(-56.5)` at
11000 m and `Ok(21.5)` at -1000 m; every altitude strictly below -1000 m
yields the below-minimum error and every altitude strictly above 80000 m
the above-maximum error, each carrying the violated bound and the input
altitude. -/
theorem c3_icao_temperature_values_and_range :
    (icao_temperature 0 = .ok 15) ∧
    (icao_temperature 11000 = .ok (-56.5)) ∧
    (icao_temperature (-1000) = .ok 21.5) ∧
    (∀ a : ℚ, a < -1000 → icao_temperature a = .error (.BelowMinimum (-1000) a)) ∧
    (∀ a : ℚ, 80000 < a → icao_temperature a = .error (.AboveMaximum 80000 a)) := by
  refine ⟨?_, ?_, ?_, icao_temperature_below, icao_temperature_above⟩ <;>
    norm_num [icao_temperature, ICAO_MINIMUM_PRESSURE_ALTITUDE,
      ICAO_MAXIMUM_PRESSURE_ALTITUDE, atmospheric_level_by_geopotential_altitude, LEVELS,
      TROPOSPHERIC_TEMPERATURE_LAPSE, STRATOSPHERIC_TEMPERATURE_LAPSE, List.takeWhile,
      round, rustRound]

/-- C3 witness: the range clauses of
`c3_icao_temperature_values_and_range` at -1000.5 m and 80000.5 m. -/
theorem c3_icao_temperature_witness :
    icao_temperature (-1000.5) = .error (.BelowMinimum (-1000) (-1000.5)) ∧
    icao_temperature 80000.5 = .error (.AboveMaximum 80000 80000.5) :=
  ⟨c3_icao_temperature_values_and_range.2.2.2.1 (-1000.5) (by norm_num),
   c3_icao_temperature_values_and_range.2.2.2.2 80000.5 (by norm_num)⟩

/-- C4: the pressure-altitude correction multiplies the distance by
`max(1.0, 1 + tier * (altitude_ft / 1000))` with the spec's tier
(`>3000 → 0.18`, `>1000 → 0.13`, else `0.10`), and for a non-negative
input distance the result is never smaller than the input. -/
theorem c4_pressure_altitude_correction (d pa : ℚ) :
    apply_pressure_altitude_correction d pa
      = d * max 1 (1 + spec_pressure_tier pa * (pa / 1000)) ∧
    (0 ≤ d → d ≤ apply_pressure_altitude_correction d pa) := by
  constructor
  · simp only [apply_pressure_altitude_correction, spec_pressure_tier]
    rw [max_comm]
  · intro hd
    simp only [apply_pressure_altitude_correction]
    exact le_mul_of_one_le_right hd (le_max_right _ _)

/-- C4 witness: `c4_pressure_altitude_correction` at distance 100 m and
pressure altitude 2000 ft. -/
theorem c4_pressure_altitude_correction_witness :
    (0 : ℚ) ≤ 100 ∧ (100 : ℚ) ≤ apply_pressure_altitude_correction 100 2000 :=
  ⟨by norm_num, (c4_pressure_altitude_correction 100 2000).2 (by norm_num)⟩

/-- C8 counterexample: at the ISA reference pressure the function is NOT
the identity on every field elevation; at `x = 0.001` m the result is
rounded to two decimals, giving 0 rather than `0.001`. -/
theorem c8_qnh_identity_counterexample :
    pressure_altitude_by_qnh powAtOne 1013.25 (1 / 1000) ≠ 1 / 1000 := by
  have h : pressure_altitude_by_qnh powAtOne 1013.25 (1 / 1000) = 0 := by
    norm_num [pressure_altitude_by_qnh, powAtOne, ISA_TEMPERATURE, ISA_PRESSURE,
      TROPOSPHERIC_TEMPERATURE_LAPSE, SPECIFIC_GAS_CONSTANT, GRAVITATIONAL_ACCELERATION,
      round, rustRound]
  rw [h]
  norm_num

/-- C8 (amended): for any power function with `fpow 1 e = 1` (as IEEE-754
`powf` satisfies), `pressure_altitude_by_qnh` at the ISA reference
pressure 1013.25 hPa returns `round(x, 2)`, hence is the identity exactly
on field elevations that are whole multiples of 0.01 m. -/
theorem c8_qnh_isa_reference (fpow : ℚ → ℚ → ℚ)
    (hfpow : fpow 1 (SPECIFIC_GAS_CONSTANT * TROPOSPHERIC_TEMPERATURE_LAPSE
      / GRAVITATIONAL_ACCELERATION) = 1) (x : ℚ) :
    pressure_altitude_by_qnh fpow 1013.25 x = round x 2 ∧
    (∀ k : ℤ, x = (k : ℚ) / 100 → pressure_altitude_by_qnh fpow 1013.25 x = x) := by
  have hbase : (1013.25 : ℚ) / ISA_PRESSURE = 1 := by norm_num [ISA_PRESSURE]
  have hmain : pressure_altitude_by_qnh fpow 1013.25 x = round x 2 := by
    unfold pressure_altitude_by_qnh
    rw [hbase, hfpow]
    norm_num
  exact ⟨hmain, fun k hk => by rw [hmain, hk, round_two_decimals]⟩

/-- C8 witness: `c8_qnh_isa_reference` at field elevation 113 m with the
base-1 power function. -/
theorem c8_qnh_isa_reference_witness :
    pressure_altitude_by_qnh powAtOne 1013.25 113 = 113 :=
  (c8_qnh_isa_reference powAtOne (by norm_num [powAtOne]) 113).2 11300 (by norm_num)

/-- C10: `calculate_takeoff_distance` can return `Ok` with strictly
negative distances: at slope -25 % (with mass 472.5 kg, pressure altitude
0 ft, temperature 15 °C, no grass, Inconspicuous) the slope factor
`1 + 0.1 * (-25) = -1.5` is negative and both components are negative. -/
theorem c10_negative_distances :
    calculate_takeoff_distance .Rotax912Uls 472.5 0 15 (-25) none .Inconspicuous
      = .ok (-125, -281.25) ∧ (-125 : ℚ) < 0 ∧ (-281.25 : ℚ) < 0 := by
  refine ⟨?_, by norm_num, by norm_num⟩
  norm_num [calculate_takeoff_distance, MAX_TEMP, MIN_TEMP, MAX_SLOPE,
    takeoff_distances_by_engine, calculate_base_distance, upper_border, strict_upper_bound,
    lerp, List.takeWhile, apply_corrections, apply_environmental_corrections,
    apply_pressure_altitude_correction, apply_temperature_correction,
    calculate_temperature_deviation_for_correction, calculate_temperature_deviation,
    feet_to_meter, FEET, icao_temperature, ICAO_MINIMUM_PRESSURE_ALTITUDE,
    ICAO_MAXIMUM_PRESSURE_ALTITUDE, atmospheric_level_by_geopotential_altitude, LEVELS,
    TROPOSPHERIC_TEMPERATURE_LAPSE, STRATOSPHERIC_TEMPERATURE_LAPSE, round, rustRound]

/-- C5: with temperature, slope and pressure altitude valid, every mass
strictly below the selected engine table's first entry yields `MassTooLow`
carrying that minimum, every mass strictly above the last entry yields
`MassTooHigh` carrying that maximum, and the two boundary masses succeed. -/
theorem c5_mass_envelope (engine : Engine) (pa t s : ℚ) (g : Option GrassSurface)
    (c : SurfaceCondition)
    (h1 : -90 ≤ t) (h2 : t ≤ 70) (h3 : -25 ≤ s) (h4 : s ≤ 25)
    (h5 : -1000 ≤ feet_to_meter pa) (h6 : feet_to_meter pa ≤ 80000) :
    (∀ m : ℚ, m < (takeoff_distances_by_engine engine).mass.headD 0 →
      calculate_takeoff_distance engine m pa t s g c
        = .error (.MassTooLow ((takeoff_distances_by_engine engine).mass.headD 0) m)) ∧
    (∀ m : ℚ, (takeoff_distances_by_engine engine).mass.getLastD 0 < m →
      calculate_takeoff_distance engine m pa t s g c
        = .error (.MassTooHigh ((takeoff_distances_by_engine engine).mass.getLastD 0) m)) ∧
    (∃ p, calculate_takeoff_distance engine
      ((takeoff_distances_by_engine engine).mass.headD 0) pa t s g c = .ok p) ∧
    (∃ p, calculate_takeoff_distance engine
      ((takeoff_distances_by_engine engine).mass.getLastD 0) pa t s g c = .ok p) := by
  have hmnmx : (takeoff_distances_by_engine engine).mass.headD 0
      ≤ (takeoff_distances_by_engine engine).mass.getLastD 0 := by
    cases engine <;> norm_num [takeoff_distances_by_engine]
  have hslope : ¬(25 < s ∨ s < -25) := by
    rintro (h | h)
    exacts [absurd h (not_lt.2 h4), absurd h (not_lt.2 h3)]
  refine ⟨?_, ?_, ?_, ?_⟩
  · intro m hm
    simp only [calculate_takeoff_distance, MAX_TEMP, MIN_TEMP, MAX_SLOPE]
    rw [if_neg (not_lt.2 h2), if_neg (not_lt.2 h1), if_neg hslope, if_pos hm]
  · intro m hm
    have hge : ¬ m < (takeoff_distances_by_engine engine).mass.headD 0 :=
      not_lt.2 (hmnmx.trans hm.le)
    simp only [calculate_takeoff_distance, MAX_TEMP, MIN_TEMP, MAX_SLOPE]
    rw [if_neg (not_lt.2 h2), if_neg (not_lt.2 h1), if_neg hslope, if_neg hge, if_pos hm]
  · obtain ⟨v1, hv1⟩ := apply_corrections_isOk
      (calculate_base_distance ((takeoff_distances_by_engine engine).mass.headD 0)
        (takeoff_distances_by_engine engine).mass
        (takeoff_distances_by_engine engine).takeoff_run) pa t s g c h5 h6
    obtain ⟨v2, hv2⟩ := apply_corrections_isOk
      (calculate_base_distance ((takeoff_distances_by_engine engine).mass.headD 0)
        (takeoff_distances_by_engine engine).mass
        (takeoff_distances_by_engine engine).to_50_feet) pa t s g c h5 h6
    rw [calc_eq_corrections engine _ pa t s g c h2 h1 h4 h3 le_rfl hmnmx, hv1, hv2]
    exact ⟨_, rfl⟩
  · obtain ⟨v1, hv1⟩ := apply_corrections_isOk
      (calculate_base_distance ((takeoff_distances_by_engine engine).mass.getLastD 0)
        (takeoff_distances_by_engine engine).mass
        (takeoff_distances_by_engine engine).takeoff_run) pa t s g c h5 h6
    obtain ⟨v2, hv2⟩ := apply_corrections_isOk
      (calculate_base_distance ((takeoff_distances_by_engine engine).mass.getLastD 0)
        (takeoff_distances_by_engine engine).mass
        (takeoff_distances_by_engine engine).to_50_feet) pa t s g c h5 h6
    rw [calc_eq_corrections engine _ pa t s g c h2 h1 h4 h3 hmnmx le_rfl, hv1, hv2]
    exact ⟨_, rfl⟩

/-- C5 witness: `c5_mass_envelope` for the ULS engine at mass 400 kg with
pressure altitude 0 ft, temperature 15 °C and slope 0 %. -/
theorem c5_mass_envelope_witness :
    calculate_takeoff_distance .Rotax912Uls 400 0 15 0 none .Inconspicuous
      = .error (.MassTooLow 472.5 400) := by
  have h := (c5_mass_envelope .Rotax912Uls 0 15 0 none .Inconspicuous
    (by norm_num) (by norm_num) (by norm_num) (by norm_num)
    (by norm_num [feet_to_meter, FEET]) (by norm_num [feet_to_meter, FEET])).1
    400 (by norm_num [takeoff_distances_by_engine])
  simpa [takeoff_distances_by_engine] using h

/-- C6: the validation checks of `calculate_takeoff_distance` run in the
order temperature, slope, mass, and the first failing check determines the
error, regardless of how many later checks also fail. -/
theorem c6_validation_order (engine : Engine) (mass pa t s : ℚ)
    (g : Option GrassSurface) (c : SurfaceCondition) :
    (70 < t → calculate_takeoff_distance engine mass pa t s g c
      = .error (.TemperatureTooHigh 70 t)) ∧
    (t < -90 → calculate_takeoff_distance engine mass pa t s g c
      = .error (.TemperatureTooLow (-90) t)) ∧
    (-90 ≤ t → t ≤ 70 → (25 < s ∨ s < -25) →
      calculate_takeoff_distance engine mass pa t s g c
        = .error (.SlopeTooSteep 25 s)) ∧
    (-90 ≤ t → t ≤ 70 → -25 ≤ s → s ≤ 25 →
      mass < (takeoff_distances_by_engine engine).mass.headD 0 →
      calculate_takeoff_distance engine mass pa t s g c
        = .error (.MassTooLow ((takeoff_distances_by_engine engine).mass.headD 0) mass)) ∧
    (-90 ≤ t → t ≤ 70 → -25 ≤ s → s ≤ 25 →
      (takeoff_distances_by_engine engine).mass.getLastD 0 < mass →
      calculate_takeoff_distance engine mass pa t s g c
        = .error (.MassTooHigh ((takeoff_distances_by_engine engine).mass.getLastD 0) mass)) := by
  refine ⟨?_, ?_, ?_, ?_, ?_⟩
  · intro h
    simp only [calculate_takeoff_distance, MAX_TEMP, MIN_TEMP, MAX_SLOPE]
    rw [if_pos h]
  · intro h
    simp only [calculate_takeoff_distance, MAX_TEMP, MIN_TEMP, MAX_SLOPE]
    rw [if_neg (not_lt.2 (by linarith)), if_pos h]
  · intro h1 h2 h3
    simp only [calculate_takeoff_distance, MAX_TEMP, MIN_TEMP, MAX_SLOPE]
    rw [if_neg (not_lt.2 h2), if_neg (not_lt.2 h1), if_pos h3]
  · intro h1 h2 h3 h4 h5
    simp only [calculate_takeoff_distance, MAX_TEMP, MIN_TEMP, MAX_SLOPE]
    rw [if_neg (not_lt.2 h2), if_neg (not_lt.2 h1),
      if_neg (by rintro (h | h); exacts [absurd h (not_lt.2 h4), absurd h (not_lt.2 h3)]),
      if_pos h5]
  · intro h1 h2 h3 h4 h5
    have hmn : (takeoff_distances_by_engine engine).mass.headD 0
        ≤ (takeoff_distances_by_engine engine).mass.getLastD 0 := by
      cases engine <;> norm_num [takeoff_distances_by_engine]
    simp only [calculate_takeoff_distance, MAX_TEMP, MIN_TEMP, MAX_SLOPE]
    rw [if_neg (not_lt.2 h2), if_neg (not_lt.2 h1),
      if_neg (by rintro (h | h); exacts [absurd h (not_lt.2 h4), absurd h (not_lt.2 h3)]),
      if_neg (not_lt.2 (hmn.trans h5.le)), if_pos h5]

/-- C6 witness: `c6_validation_order` on an input where the temperature,
slope and mass checks all fail; the temperature error wins. -/
theorem c6_validation_order_witness :
    calculate_takeoff_distance .Rotax912Uls 400 0 100 30 none .Inconspicuous
      = .error (.TemperatureTooHigh 70 100) :=
  (c6_validation_order .Rotax912Uls 400 0 100 30 none .Inconspicuous).1 (by norm_num)

/-- C7: for temperature `t` with `-90 ≤ t ≤ 0` the result of
`calculate_takeoff_distance` is identical to the result at temperature
0 °C, because the deviation correction clamps the temperature to
`max(temperature, 0.0)`. -/
theorem c7_subzero_temperature_clamp (engine : Engine) (mass pa s : ℚ)
    (g : Option GrassSurface) (c : SurfaceCondition) (t : ℚ)
    (h1 : -90 ≤ t) (h2 : t ≤ 0) :
    calculate_takeoff_distance engine mass pa t s g c
      = calculate_takeoff_distance engine mass pa 0 s g c ∧
    calculate_temperature_deviation_for_correction pa t
      = calculate_temperature_deviation_for_correction pa 0 := by
  have hdev : calculate_temperature_deviation_for_correction pa t
      = calculate_temperature_deviation_for_correction pa 0 := by
    unfold calculate_temperature_deviation_for_correction
    rw [max_eq_right h2, max_self]
  have hac : ∀ d : ℚ, apply_corrections d pa t s g c = apply_corrections d pa 0 s g c := by
    intro d
    unfold apply_corrections apply_environmental_corrections
    rw [hdev]
  have e1 : ¬ (70 : ℚ) < t := not_lt.2 (h2.trans (by norm_num))
  have e2 : ¬ t < (-90 : ℚ) := not_lt.2 h1
  have e3 : ¬ (70 : ℚ) < 0 := by norm_num
  have e4 : ¬ (0 : ℚ) < (-90 : ℚ) := by norm_num
  refine ⟨?_, hdev⟩
  simp only [calculate_takeoff_distance, MAX_TEMP, MIN_TEMP, MAX_SLOPE,
    if_neg e1, if_neg e2, if_neg e3, if_neg e4, hac]

/-- C7 witness: `c7_subzero_temperature_clamp` at -5 °C for the ULS
engine at mass 525 kg. -/
theorem c7_subzero_temperature_clamp_witness :
    calculate_takeoff_distance .Rotax912Uls 525 0 (-5) 0 none .Inconspicuous
      = calculate_takeoff_distance .Rotax912Uls 525 0 0 0 none .Inconspicuous :=
  (c7_subzero_temperature_clamp .Rotax912Uls 525 0 0 none .Inconspicuous (-5)
    (by norm_num) (by norm_num)).1

/-- C9: with temperature, slope and mass valid, the call succeeds exactly
when `pressure_altitude * 0.3048` lies in `[-1000, 80000]` meters, and
outside that range it returns `InvalidPressureAltitude` wrapping the
atmosphere error carrying the converted altitude. -/
theorem c9_pressure_altitude_validation (engine : Engine) (mass pa t s : ℚ)
    (g : Option GrassSurface) (c : SurfaceCondition)
    (h1 : -90 ≤ t) (h2 : t ≤ 70) (h3 : -25 ≤ s) (h4 : s ≤ 25)
    (h5 : (takeoff_distances_by_engine engine).mass.headD 0 ≤ mass)
    (h6 : mass ≤ (takeoff_distances_by_engine engine).mass.getLastD 0) :
    ((∃ p, calculate_takeoff_distance engine mass pa t s g c = .ok p)
      ↔ (-1000 ≤ pa * 0.3048 ∧ pa * 0.3048 ≤ 80000)) ∧
    (pa * 0.3048 < -1000 →
      calculate_takeoff_distance engine mass pa t s g c
        = .error (.InvalidPressureAltitude (.BelowMinimum (-1000) (pa * 0.3048)))) ∧
    (80000 < pa * 0.3048 →
      calculate_takeoff_distance engine mass pa t s g c
        = .error (.InvalidPressureAltitude (.AboveMaximum 80000 (pa * 0.3048)))) := by
  have hfm : pa * (0.3048 : ℚ) = feet_to_meter pa := rfl
  have hcalc := calc_eq_corrections engine mass pa t s g c h2 h1 h4 h3 h5 h6
  rw [hfm]
  refine ⟨⟨?_, ?_⟩, ?_, ?_⟩
  · rintro ⟨p, hp⟩
    by_contra hr
    rw [hcalc] at hp
    rcases not_and_or.1 hr with h | h
    · rw [apply_corrections_below _ pa t s g c (not_le.1 h)] at hp
      simp at hp
    · rw [apply_corrections_above _ pa t s g c (not_le.1 h)] at hp
      simp at hp
  · rintro ⟨ha, hb⟩
    obtain ⟨v1, hv1⟩ := apply_corrections_isOk
      (calculate_base_distance mass (takeoff_distances_by_engine engine).mass
        (takeoff_distances_by_engine engine).takeoff_run) pa t s g c ha hb
    obtain ⟨v2, hv2⟩ := apply_corrections_isOk
      (calculate_base_distance mass (takeoff_distances_by_engine engine).mass
        (takeoff_distances_by_engine engine).to_50_feet) pa t s g c ha hb
    rw [hcalc, hv1, hv2]
    exact ⟨_, rfl⟩
  · intro h
    rw [hcalc, apply_corrections_below _ pa t s g c h]
  · intro h
    rw [hcalc, apply_corrections_above _ pa t s g c h]

/-- C9 witness: `c9_pressure_altitude_validation` at pressure altitude
-4000 ft (converted: -1219.2 m, below the -1000 m floor). -/
theorem c9_pressure_altitude_validation_witness :
    calculate_takeoff_distance .Rotax912Uls 525 (-4000) 15 0 none .Inconspicuous
      = .error (.InvalidPressureAltitude (.BelowMinimum (-1000) (-1219.2))) := by
  have h := (c9_pressure_altitude_validation .Rotax912Uls 525 (-4000) 15 0 none
    .Inconspicuous (by norm_num) (by norm_num) (by norm_num) (by norm_num)
    (by norm_num [takeoff_distances_by_engine])
    (by norm_num [takeoff_distances_by_engine])).2.1 (by norm_num)
  rw [show ((-4000 : ℚ)) * 0.3048 = -1219.2 by norm_num] at h
  exact h

end AviationCalculator
